import Mathlib

/-!
Verification of the network dialog module of Electron-Cash-SLP
(src/electroncash_gui/qt/network_dialog.py).

The module is a Qt GUI layer; the shallow embedding below models the
decision logic of its components as pure Lean functions over explicit
state, with external collaborators (sockets, the Tor controller, the
Qt message boxes, urlparse) represented as oracle parameters:

* `TorDetector` : the background Tor SOCKS-port prober (probe predicate,
  candidate-port list, per-pass emission, queue-driven run loop,
  start/stop lifecycle).
* `NetworkDialogClose` : the close-confirmation policy of `closeEvent`.
* `SlpValidation` : the mutually exclusive graph-search / SLPDB
  validation checkboxes and the SLPDB endpoint URL validation.
* `ListRenderers` : the clear/rebuild/restore-selection pattern of the
  server and endpoint list widgets.
-/

namespace TorDetector

/-- Outcome oracle for the socket operations performed by
`TorDetector.is_tor_port` against `127.0.0.1:port`.  `connect_ok p`
states that the TCP connection to port `p` completes within the 100 ms
socket timeout (`s.settimeout(0.1)`; a timeout raises `socket.error`
and is modelled as `false`).  `send_ok p payload` states that sending
`payload` succeeds, and `recv p` is `some data` when `s.recv(1024)`
returns the first reply `data`, `none` when it raises `socket.error`. -/
structure ProbeEnv where
  connect_ok : Nat → Bool
  send_ok : Nat → List Char → Bool
  recv : Nat → Option (List Char)

/-- The 100 ms socket timeout set by `s.settimeout(0.1)`. -/
def probe_timeout_ms : Nat := 100

/-- The fixed request sent by the probe: `s.send(b"GET\n")`. -/
def probeRequest : List Char := "GET\n".data

/-- The Tor rejection string looked for in the reply:
`b"Tor is not an HTTP Proxy" in s.recv(1024)`. -/
def torRejection : List Char := "Tor is not an HTTP Proxy".data

/-- Python `needle in hay` on bytes: contiguous-subsequence test. -/
def containsSeq (needle : List Char) : List Char → Bool
  | [] => needle.isEmpty
  | c :: rest => needle.isPrefixOf (c :: rest) || containsSeq needle rest

/-- The `try` body of `TorDetector.is_tor_port`: connect, send the fixed
request, receive, and test the reply for the rejection string.
`Except.error ()` models a raised `socket.error` at the corresponding
step. -/
def probeAttempt (env : ProbeEnv) (port : Nat) : Except Unit Bool :=
  if env.connect_ok port then
    if env.send_ok port probeRequest then
      match env.recv port with
      | some data => Except.ok (containsSeq torRejection data)
      | none => Except.error ()
    else Except.error ()
  else Except.error ()

/-- `TorDetector.is_tor_port(port)`: the `try` body wrapped in
`except socket.error: pass` followed by `return False`. -/
def is_tor_port (env : ProbeEnv) (port : Nat) : Bool :=
  match probeAttempt env port with
  | Except.ok b => b
  | Except.error _ => false

/-- State of the external `TorController` collaborator as read by
`TorDetector.run`: `present` is the truthiness of
`self.network.tor_controller`, `enabled` of `is_enabled()`, and
`active_socks_port` models `active_socks_port` with `0` standing for
Python `None`/`0` (both falsy). -/
structure TorCtl where
  present : Bool
  enabled : Bool
  active_socks_port : Nat

/-- The candidate port list built at the top of each pass of
`TorDetector.run`: `ports = [9050, 9150]`, with the controller's active
SOCKS port inserted at index 0 when the controller is present, enabled
and has a truthy active port. -/
def candidatePorts (tc : TorCtl) : List Nat :=
  if tc.present && tc.enabled && decide (tc.active_socks_port ≠ 0) then
    tc.active_socks_port :: [9050, 9150]
  else
    [9050, 9150]

/-- The `for p in ports: ... else:` loop of one pass of
`TorDetector.run`, returning the list of `found_proxy.emit` payloads of
the pass: `("127.0.0.1", p)` for the first responding port (then
`break`), and the `else` clause emits `none` when no port responded. -/
def probePassEmits (env : ProbeEnv) : List Nat → List (Option (String × Nat))
  | [] => [none]
  | p :: ps =>
    if is_tor_port env p then [some ("127.0.0.1", p)] else probePassEmits env ps

theorem probePassEmits_eq_find (env : ProbeEnv) (l : List Nat) :
    probePassEmits env l = [(l.find? (fun p => is_tor_port env p)).map (fun p => ("127.0.0.1", p))] := by
  induction l with
  | nil => rfl
  | cons p ps ih =>
    simp only [probePassEmits, List.find?]
    by_cases h : is_tor_port env p
    · simp [h]
    · simp only [h, if_false, ih]
      simp [Bool.not_eq_true] at h
      simp [h]

/-- C1: `is_tor_port env port` is `true` iff the 100ms-timeout
connection succeeds, the fixed request `b"GET\n"` is sent successfully,
and the first received reply contains `"Tor is not an HTTP Proxy"`;
every socket error in the probe makes the result `false` (the function
is total: no exception escapes). -/
theorem is_tor_port_spec (env : ProbeEnv) (port : Nat) :
    (is_tor_port env port = true ↔
      env.connect_ok port = true ∧ env.send_ok port probeRequest = true ∧
        ∃ data, env.recv port = some data ∧ containsSeq torRejection data = true)
    ∧ (∀ e : Unit, probeAttempt env port = Except.error e → is_tor_port env port = false)
    ∧ probeRequest = "GET\n".data := by
  refine ⟨?_, ?_, rfl⟩
  · unfold is_tor_port probeAttempt
    cases hc : env.connect_ok port with
    | false => simp [hc]
    | true =>
      cases hs : env.send_ok port probeRequest with
      | false => simp [hc, hs]
      | true =>
        cases hr : env.recv port with
        | none => simp [hc, hs, hr]
        | some data => simp [hc, hs, hr]
  · intro e he
    unfold is_tor_port
    rw [he]

/-- Witness for `is_tor_port_spec`: an environment where port 9050
replies with the rejection string embedded in a longer reply. -/
theorem is_tor_port_spec_witness :
    is_tor_port
      { connect_ok := fun p => decide (p = 9050),
        send_ok := fun _ _ => true,
        recv := fun _ => some ("HTTP/1.0 501 Tor is not an HTTP Proxy\r\n".data) }
      9050 = true := by
  have h := (is_tor_port_spec
      { connect_ok := fun p => decide (p = 9050),
        send_ok := fun _ _ => true,
        recv := fun _ => some ("HTTP/1.0 501 Tor is not an HTTP Proxy\r\n".data) }
      9050).1
  exact h.mpr ⟨by decide, rfl, _, rfl, by decide⟩

/-- C2: in each pass of `TorDetector.run` the candidate list is
`[9050, 9150]` with the active SOCKS port prepended exactly when the
controller is present, enabled and has a nonzero active port; the pass
emits exactly one result, namely `("127.0.0.1", p)` for the first
candidate `p` that probes as Tor, else a single `none`. -/
theorem run_pass_spec (env : ProbeEnv) (tc : TorCtl) :
    ((tc.present && tc.enabled && decide (tc.active_socks_port ≠ 0)) = true →
        candidatePorts tc = [tc.active_socks_port, 9050, 9150])
    ∧ ((tc.present && tc.enabled && decide (tc.active_socks_port ≠ 0)) = false →
        candidatePorts tc = [9050, 9150])
    ∧ (probePassEmits env (candidatePorts tc)).length = 1
    ∧ probePassEmits env (candidatePorts tc) =
        [((candidatePorts tc).find? (fun p => is_tor_port env p)).map
          (fun p => ("127.0.0.1", p))] := by
  refine ⟨?_, ?_, ?_, probePassEmits_eq_find env (candidatePorts tc)⟩
  · intro h
    simp only [candidatePorts]
    rw [if_pos h]
  · intro h
    simp only [candidatePorts]
    rw [if_neg]
    intro hc
    rw [hc] at h
    exact absurd h (by decide)
  · rw [probePassEmits_eq_find]
    rfl

/-- Witness for `run_pass_spec`: with the controller enabled on port
9051 and no port responding, the single emission of the pass is
`none`. -/
theorem run_pass_spec_witness :
    candidatePorts { present := true, enabled := true, active_socks_port := 9051 } =
      [9051, 9050, 9150]
    ∧ probePassEmits
        { connect_ok := fun _ => false, send_ok := fun _ _ => true, recv := fun _ => none }
        (candidatePorts { present := true, enabled := true, active_socks_port := 9051 }) =
      [none] := by
  have h := run_pass_spec
      { connect_ok := fun _ => false, send_ok := fun _ _ => true, recv := fun _ => none }
      { present := true, enabled := true, active_socks_port := 9051 }
  refine ⟨h.1 (by decide), ?_⟩
  rw [h.2.2.2]
  rw [h.1 (by decide)]
  rfl

end TorDetector

namespace TorDetector

/-- Items placed on `self.stopQ`: the wake-up string `'kick'` put by
`on_tor_port_changed`, and the stop sentinel `None` put by `stop`. -/
inductive QItem
  | kick
  | stopSentinel
deriving DecidableEq

/-- Result of `self.stopQ.get(timeout=10.0)`: a dequeued item, or the
`queue.Empty` exception raised after the full 10 s timeout. -/
inductive GetResult
  | item (i : QItem)
  | empty
deriving DecidableEq

/-- The decision taken by the tail of each `run` iteration after the
queue wait: `none` models the `return` that ends the thread (sentinel
dequeued); `some d` models `continue` with the next pass starting
`d` ms after the wait ended (`QThread.msleep(250)` after a kick,
`0` extra ms after the 10 000 ms timeout). -/
def nextPassDelay : GetResult → Option Nat
  | GetResult.item QItem.stopSentinel => none
  | GetResult.item QItem.kick => some 250
  | GetResult.empty => some 10000

/-- `stopQ.get(timeout=10.0)` against the FIFO queue contents: returns
the head at once when an item is queued, else waits the full 10 s and
raises `queue.Empty`. -/
def waitOutcome (q : List QItem) : GetResult :=
  match q with
  | [] => GetResult.empty
  | i :: _ => GetResult.item i

/-- `TorDetector.on_tor_port_changed`: puts `'kick'` on `stopQ` exactly
when `controller.active_socks_port` is truthy (modelled as a nonzero
`Nat`) and the thread `isRunning()`. -/
def on_tor_port_changed (active_socks_port : Nat) (isRunning : Bool)
    (q : List QItem) : List QItem :=
  if decide (active_socks_port ≠ 0) && isRunning then q ++ [QItem.kick] else q

/-- Worker-thread phase: `running` from `start` until the `return`
inside `run`; `exited` afterwards. -/
inductive WorkerPhase
  | running
  | exited
deriving DecidableEq

/-- Phase of a `stop()` call on the UI thread: not yet invoked,
blocked in `self.wait()` after putting the sentinel, or returned. -/
inductive StopperPhase
  | idle
  | joining
  | returned
deriving DecidableEq

/-- Joint state of one started detector: worker phase, `stopQ`
contents, and the phase of the (single) `stop()` caller. -/
structure DetState where
  worker : WorkerPhase
  queue : List QItem
  stopper : StopperPhase
deriving DecidableEq

/-- Interleaving semantics of the running detector: the worker dequeues
a kick (then continues), dequeues the sentinel (then `return`s), or
times out on an empty queue; `on_tor_port_changed` enqueues a kick;
`stop` on a running worker enqueues the sentinel and blocks in
`wait()`, returning once the worker has exited, and returns at once
when the worker already exited (`isRunning()` false). -/
inductive DetStep : DetState → DetState → Prop
  | dequeue_kick (q : List QItem) (st : StopperPhase) :
      DetStep ⟨WorkerPhase.running, QItem.kick :: q, st⟩
              ⟨WorkerPhase.running, q, st⟩
  | dequeue_stop (q : List QItem) (st : StopperPhase) :
      DetStep ⟨WorkerPhase.running, QItem.stopSentinel :: q, st⟩
              ⟨WorkerPhase.exited, q, st⟩
  | wait_timeout (st : StopperPhase) :
      DetStep ⟨WorkerPhase.running, [], st⟩
              ⟨WorkerPhase.running, [], st⟩
  | kick_enqueue (q : List QItem) (st : StopperPhase) :
      DetStep ⟨WorkerPhase.running, q, st⟩
              ⟨WorkerPhase.running, q ++ [QItem.kick], st⟩
  | stop_call (q : List QItem) :
      DetStep ⟨WorkerPhase.running, q, StopperPhase.idle⟩
              ⟨WorkerPhase.running, q ++ [QItem.stopSentinel], StopperPhase.joining⟩
  | stop_noop (q : List QItem) :
      DetStep ⟨WorkerPhase.exited, q, StopperPhase.idle⟩
              ⟨WorkerPhase.exited, q, StopperPhase.returned⟩
  | stop_join (q : List QItem) :
      DetStep ⟨WorkerPhase.exited, q, StopperPhase.joining⟩
              ⟨WorkerPhase.exited, q, StopperPhase.returned⟩

/-- State right after `start`: worker running, fresh empty `stopQ`,
no `stop` call yet. -/
def initState : DetState :=
  ⟨WorkerPhase.running, [], StopperPhase.idle⟩

/-- States reachable from `initState` under any interleaving. -/
inductive Reach : DetState → Prop
  | init : Reach initState
  | step (s t : DetState) : Reach s → DetStep s t → Reach t

theorem reach_returned_exited (s : DetState) (h : Reach s) :
    s.stopper = StopperPhase.returned → s.worker = WorkerPhase.exited := by
  induction h with
  | init => intro hc; exact StopperPhase.noConfusion hc
  | step s t hr hstep ih =>
    intro ht
    cases hstep with
    | dequeue_kick q st => exact ih ht
    | dequeue_stop q st => rfl
    | wait_timeout st => exact ih ht
    | kick_enqueue q st => exact ih ht
    | stop_call q => exact StopperPhase.noConfusion ht
    | stop_noop q => rfl
    | stop_join q => rfl

/-- C3: in every interleaving of one `start` with worker steps, kick
enqueues and one `stop`, whenever `stop()` has returned the worker
thread has exited; the run loop terminates on dequeuing the sentinel
`None` and only then; and `stop()` on a running detector enqueues the
sentinel and moves to waiting on the worker. -/
theorem stop_terminates_spec (s : DetState) (h : Reach s) :
    (s.stopper = StopperPhase.returned → s.worker = WorkerPhase.exited)
    ∧ (∀ r : GetResult, nextPassDelay r = none ↔ r = GetResult.item QItem.stopSentinel)
    ∧ (s.stopper = StopperPhase.idle → s.worker = WorkerPhase.running →
        DetStep s ⟨WorkerPhase.running, s.queue ++ [QItem.stopSentinel], StopperPhase.joining⟩) := by
  refine ⟨reach_returned_exited s h, ?_, ?_⟩
  · intro r
    cases r with
    | item i => cases i <;> simp [nextPassDelay]
    | empty => simp [nextPassDelay]
  · intro h1 h2
    obtain ⟨w, q, st⟩ := s
    cases h1
    cases h2
    exact DetStep.stop_call q

/-- Witness for `stop_terminates_spec`, at the state reached by
`start; stop(); worker dequeues the sentinel; wait() returns`. -/
theorem stop_terminates_spec_witness :
    (⟨WorkerPhase.exited, [], StopperPhase.returned⟩ : DetState).worker = WorkerPhase.exited
    ∧ nextPassDelay (GetResult.item QItem.stopSentinel) = none := by
  have h := stop_terminates_spec ⟨WorkerPhase.exited, [], StopperPhase.returned⟩
    (Reach.step _ _
      (Reach.step _ _
        (Reach.step _ _ Reach.init (DetStep.stop_call []))
        (DetStep.dequeue_stop [] StopperPhase.joining))
      (DetStep.stop_join []))
  exact ⟨h.1 rfl, (h.2.1 (GetResult.item QItem.stopSentinel)).mpr rfl⟩

/-- C4: an active-port-changed notification with a nonzero active SOCKS
port on a running detector enqueues a `'kick'`; when the worker was
waiting on an empty queue, it now starts the next probe pass after the
250 ms settle delay instead of the full 10 000 ms timeout; a kick never
terminates the loop. -/
theorem kick_reprobe_spec (port : Nat) (q : List QItem) (hp : port ≠ 0) :
    on_tor_port_changed port true q = q ++ [QItem.kick]
    ∧ (q = [] →
        nextPassDelay (waitOutcome (on_tor_port_changed port true q)) = some 250)
    ∧ (∀ rest, nextPassDelay (waitOutcome (QItem.kick :: rest)) = some 250)
    ∧ nextPassDelay (waitOutcome []) = some 10000
    ∧ (250 : Nat) < 10000
    ∧ nextPassDelay (GetResult.item QItem.kick) ≠ none := by
  refine ⟨?_, ?_, ?_, rfl, by decide, by decide⟩
  · simp [on_tor_port_changed, hp]
  · intro hq
    subst hq
    simp [on_tor_port_changed, hp, waitOutcome, nextPassDelay]
  · intro rest
    rfl

/-- Witness for `kick_reprobe_spec` at port 9050 and an empty queue. -/
theorem kick_reprobe_spec_witness :
    on_tor_port_changed 9050 true [] = [QItem.kick]
    ∧ nextPassDelay (waitOutcome (on_tor_port_changed 9050 true [])) = some 250 := by
  have h := kick_reprobe_spec 9050 [] (by decide)
  exact ⟨h.1, h.2.1 rfl⟩

/-- `TorDetector` lifecycle state as observed by `start` and `stop`:
whether the underlying QThread is running, and the `stopQ` contents. -/
structure LifeState where
  running : Bool
  stopQ : List QItem
deriving DecidableEq

/-- `TorDetector.start`: unconditionally assigns a brand-new empty
`queue.Queue()` to `self.stopQ` (the source comments that this blows
away the old one to prevent stop/start races), then calls
`QThread.start()`, which launches the thread when it is not running and
is a no-op on a running thread (so `running` is `true` afterwards in
either case, and no second worker is created). -/
def start (_s : LifeState) : LifeState :=
  { running := true, stopQ := [] }

/-- Counterexample to C5 as stated: calling `start` on a running
detector whose `stopQ` holds a pending kick does not leave the state
unchanged — the queue is replaced by a fresh empty one. -/
theorem start_not_noop_counterexample :
    start { running := true, stopQ := [QItem.kick] } ≠
      { running := true, stopQ := [QItem.kick] } := by
  decide

/-- C5 (amended): `start` on a running detector does not create a
second worker (the single thread keeps running) and is idempotent as a
state transformer, but it is not a pure no-op: it unconditionally
resets `stopQ` to a fresh empty queue, discarding any pending items in
the channel the worker waits on. -/
theorem start_while_running_spec (s : LifeState) (h : s.running = true) :
    (start s).running = s.running
    ∧ (start s).stopQ = []
    ∧ start (start s) = start s := by
  exact ⟨h.symm, rfl, rfl⟩

/-- Witness for `start_while_running_spec` on a running detector with a
pending kick. -/
theorem start_while_running_spec_witness :
    (start { running := true, stopQ := [QItem.kick] }).running = true
    ∧ (start { running := true, stopQ := [QItem.kick] }).stopQ = [] := by
  have h := start_while_running_spec { running := true, stopQ := [QItem.kick] } rfl
  exact ⟨h.1, h.2.1⟩

end TorDetector

/-- Python `host.lower().endswith('.onion')`, shared by
`NetworkDialog.closeEvent` and `ServerListWidget.update`. -/
def isOnionHost (host : String) : Bool :=
  List.isSuffixOf ".onion".data (host.data.map Char.toLower)

namespace NetworkDialogClose

/-- The inputs read by `NetworkDialog.closeEvent`: the SSL and Tor
checkbox states, the server host line-edit text, and the persisted
`non_ssl_noprompt` config value (default `False`). -/
structure ClosePrefs where
  ssl_checked : Bool
  tor_checked : Bool
  server_host : String
  non_ssl_noprompt : Bool

/-- The guard of the warning in `closeEvent`: non-SSL mode, no Tor
proxy, host not ending in `.onion`, and no persisted opt-out. -/
def nonSslRisky (c : ClosePrefs) : Bool :=
  !c.ssl_checked && !c.tor_checked && !(isOnionHost c.server_host)
    && !c.non_ssl_noprompt

/-- Observable outcome of one `closeEvent`: whether the blocking
question was shown, whether the dialog closed (`e.ignore()` not
called), and the `non_ssl_noprompt` config value afterwards. -/
structure CloseResult where
  prompted : Bool
  closed : Bool
  non_ssl_noprompt : Bool

/-- `NetworkDialog.closeEvent`: when the risk guard holds, ask the
blocking question returning `(ok, chk)`; persist the opt-out when
`chk`; ignore the event (keep the dialog open) when not `ok`.
Otherwise close without prompting. -/
def closeEvent (c : ClosePrefs) (ok chk : Bool) : CloseResult :=
  if nonSslRisky c then
    { prompted := true,
      closed := ok,
      non_ssl_noprompt := if chk then true else c.non_ssl_noprompt }
  else
    { prompted := false, closed := true, non_ssl_noprompt := c.non_ssl_noprompt }

theorem closeEvent_prompted (c : ClosePrefs) (ok chk : Bool) :
    (closeEvent c ok chk).prompted = nonSslRisky c := by
  unfold closeEvent
  by_cases h : nonSslRisky c = true
  · simp [h]
  · simp [h]

/-- A risky configuration used as the witness input: non-SSL, no Tor,
clearnet host, no persisted opt-out. -/
def riskyPrefs : ClosePrefs :=
  { ssl_checked := false, tor_checked := false, server_host := "example.com",
    non_ssl_noprompt := false }

/-- C6: the blocking prompt is shown exactly when the connection is
non-SSL-risky with no persisted opt-out; the close is ignored iff the
prompt was shown and the user declined; and ticking the prompt checkbox
persists `non_ssl_noprompt`, after which no later close attempt
prompts again. -/
theorem closeEvent_spec (c : ClosePrefs) (ok chk : Bool) :
    (closeEvent c ok chk).prompted = nonSslRisky c
    ∧ ((closeEvent c ok chk).closed = false ↔ nonSslRisky c = true ∧ ok = false)
    ∧ (nonSslRisky c = true → chk = true →
        (closeEvent c ok chk).non_ssl_noprompt = true
        ∧ ∀ ok2 chk2 : Bool,
            (closeEvent
              { c with non_ssl_noprompt := (closeEvent c ok chk).non_ssl_noprompt }
              ok2 chk2).prompted = false) := by
  by_cases hr : nonSslRisky c = true
  · refine ⟨closeEvent_prompted c ok chk, by simp [closeEvent, hr], ?_⟩
    intro _ hchk
    have hres : (closeEvent c ok chk).non_ssl_noprompt = true := by
      simp [closeEvent, hr, hchk]
    refine ⟨hres, ?_⟩
    intro ok2 chk2
    rw [closeEvent_prompted]
    rw [hres]
    simp [nonSslRisky]
  · have hr2 : nonSslRisky c = false := by
      cases h : nonSslRisky c
      · rfl
      · exact absurd h hr
    refine ⟨closeEvent_prompted c ok chk, by simp [closeEvent, hr2], ?_⟩
    intro hc
    exact absurd hc hr

/-- Witness for `closeEvent_spec`: on `riskyPrefs` the user declines
and ticks the opt-out checkbox: the dialog stays open and the opt-out
is persisted. -/
theorem closeEvent_spec_witness :
    nonSslRisky riskyPrefs = true
    ∧ (closeEvent riskyPrefs false true).closed = false
    ∧ (closeEvent riskyPrefs false true).non_ssl_noprompt = true := by
  have hrisk : nonSslRisky riskyPrefs = true := by decide
  have h := closeEvent_spec riskyPrefs false true
  exact ⟨hrisk, (h.2.1).mpr ⟨hrisk, rfl⟩, (h.2.2 hrisk rfl).1⟩

end NetworkDialogClose

namespace SlpValidation

/-- The pair of validation-method checkboxes: `slp_gs_enable_cb`
(graph search) and `slp_slpdb_enable_cb` (SLPDB). -/
structure CBState where
  gs : Bool
  slpdb : Bool
deriving DecidableEq

/-- `NetworkChoiceLayout.use_slp_gs`, the click handler of
`slp_gs_enable_cb`: `gs` already holds the just-toggled value, which is
forwarded to `slp_gs_mgr.toggle_graph_search`; the SLPDB checkbox is
unchecked unconditionally. -/
def use_slp_gs (s : CBState) : CBState :=
  { s with slpdb := false }

/-- The two buttons of the SLPDB warning box
(`QMessageBox.Ok | QMessageBox.Cancel`). -/
inductive MsgChoice
  | okBtn
  | cancelBtn
deriving DecidableEq

/-- `NetworkChoiceLayout.slpdb_msg_box`, the click handler of
`slp_slpdb_enable_cb`: when the box was just checked, show the warning;
on Ok uncheck graph search and call `use_slp_slpdb` (which keeps the
SLPDB box checked), on Cancel uncheck the SLPDB box.  When the box was
just unchecked, only hide widgets and disable SLPDB validation. -/
def slpdb_msg_box (s : CBState) (choice : MsgChoice) : CBState :=
  if s.slpdb then
    match choice with
    | MsgChoice.okBtn => { s with gs := false }
    | MsgChoice.cancelBtn => { s with slpdb := false }
  else s

/-- The three buttons of `gs_and_slpdb_checked_msg_box` in the order
they are added (`exec` returns their index; Esc routes to the
RejectRole button, i.e. `disableBoth`). -/
inductive PickChoice
  | graphSearch
  | slpdb
  | disableBoth
deriving DecidableEq

/-- `NetworkChoiceLayout.gs_and_slpdb_checked_msg_box`: resolves the
both-enabled configuration to one method or neither. -/
def gs_and_slpdb_checked_msg_box (s : CBState) (c : PickChoice) : CBState :=
  match c with
  | PickChoice.graphSearch => { s with slpdb := false }
  | PickChoice.slpdb => { gs := false, slpdb := true }
  | PickChoice.disableBoth => { gs := false, slpdb := false }

/-- C7: after any execution of `use_slp_gs`, `slpdb_msg_box` or
`gs_and_slpdb_checked_msg_box`, at most one of the two validation
checkboxes is checked; checking graph search unchecks SLPDB, and
confirming SLPDB unchecks graph search. -/
theorem validation_mutual_exclusion (s : CBState) (mc : MsgChoice) (pc : PickChoice) :
    ((use_slp_gs s).gs && (use_slp_gs s).slpdb) = false
    ∧ ((slpdb_msg_box s mc).gs && (slpdb_msg_box s mc).slpdb) = false
    ∧ ((gs_and_slpdb_checked_msg_box s pc).gs
        && (gs_and_slpdb_checked_msg_box s pc).slpdb) = false
    ∧ (use_slp_gs s).slpdb = false
    ∧ (∀ g : Bool, (slpdb_msg_box { gs := g, slpdb := true } MsgChoice.okBtn).gs = false) := by
  obtain ⟨g, d⟩ := s
  refine ⟨by simp [use_slp_gs], ?_, ?_, by simp [use_slp_gs], ?_⟩
  · cases d <;> cases mc <;> simp [slpdb_msg_box]
  · cases pc <;> simp [gs_and_slpdb_checked_msg_box]
  · intro g2
    simp [slpdb_msg_box]

end SlpValidation

namespace SlpValidation

/-- The fields of a `urlparse` result that `is_url` reads. -/
structure UrlParts where
  scheme : String
  netloc : String
deriving DecidableEq

/-- Oracle for the standard-library `urlparse` collaborator:
`Except.ok parts` for a returned parse, `Except.error ()` for a raised
`ValueError` (e.g. an unmatched IPv6 bracket in the netloc). -/
def UrlParser : Type := String → Except Unit UrlParts

/-- `NetworkChoiceLayout.is_url`: `all([result.scheme, result.netloc])`
— both parts truthy (nonempty) — with `ValueError` caught and turned
into `False`. -/
def is_url (urlparse : UrlParser) (u : String) : Bool :=
  match urlparse u with
  | Except.ok r => !r.scheme.isEmpty && !r.netloc.isEmpty
  | Except.error _ => false

/-- Observable outcome of `slpdb_endpoint_msg_box`: the modal error
dialog for a malformed URL, a call of
`update_slp_slpdb_server(server, add=True)`, or no action (user
cancelled the confirmation). -/
inductive EndpointAction
  | errorDialog
  | added (server : String)
  | notAdded
deriving DecidableEq

/-- `NetworkChoiceLayout.slpdb_endpoint_msg_box`: when the entered text
is a well-formed URL, show the confirmation box and add the endpoint on
Ok; otherwise show the modal error box and add nothing. -/
def slpdb_endpoint_msg_box (urlparse : UrlParser) (text : String)
    (userOk : Bool) : EndpointAction :=
  if is_url urlparse text then
    if userOk then EndpointAction.added text else EndpointAction.notAdded
  else EndpointAction.errorDialog

/-- C8: a string that `urlparse` maps to an empty scheme or empty
netloc — or on which it raises `ValueError` — produces the modal error
dialog and is never added; an endpoint is added exactly when the text
is a well-formed URL and the user confirms; `is_url` is total on
strings. -/
theorem slpdb_endpoint_validation (up : UrlParser) (t : String) (okb : Bool) :
    (∀ r : UrlParts, up t = Except.ok r →
        (r.scheme.isEmpty || r.netloc.isEmpty) = true →
        slpdb_endpoint_msg_box up t okb = EndpointAction.errorDialog)
    ∧ (∀ e : Unit, up t = Except.error e →
        slpdb_endpoint_msg_box up t okb = EndpointAction.errorDialog)
    ∧ (∀ sv : String, slpdb_endpoint_msg_box up t okb = EndpointAction.added sv ↔
        is_url up t = true ∧ okb = true ∧ sv = t)
    ∧ (is_url up t = true ∨ is_url up t = false) := by
  refine ⟨?_, ?_, ?_, ?_⟩
  · intro r hr hempty
    have hu : is_url up t = false := by
      unfold is_url
      rw [hr]
      rcases Bool.or_eq_true_iff.mp hempty with h | h
      · simp [h]
      · simp [h]
    simp [slpdb_endpoint_msg_box, hu]
  · intro e he
    have hu : is_url up t = false := by
      unfold is_url
      rw [he]
    simp [slpdb_endpoint_msg_box, hu]
  · intro sv
    unfold slpdb_endpoint_msg_box
    by_cases hu : is_url up t = true
    · cases okb with
      | true => simp [hu, eq_comm]
      | false => simp [hu]
    · have hu2 : is_url up t = false := by
        cases h : is_url up t
        · rfl
        · exact absurd h hu
      simp [hu2]
  · cases h : is_url up t
    · exact Or.inr rfl
    · exact Or.inl rfl

/-- A concrete `urlparse` oracle used in the witness: one well-formed
URL, one string raising `ValueError`, everything else parsing to empty
scheme and netloc. -/
def sampleUrlParser : UrlParser :=
  fun s =>
    if s = "http://example.com/x" then
      Except.ok { scheme := "http", netloc := "example.com" }
    else if s = "http://[::1" then
      Except.error ()
    else
      Except.ok { scheme := "", netloc := "" }

/-- Witness for `slpdb_endpoint_validation`: the well-formed URL is
added on confirm, the malformed string and the `ValueError` string
produce the error dialog. -/
theorem slpdb_endpoint_validation_witness :
    slpdb_endpoint_msg_box sampleUrlParser "http://example.com/x" true =
      EndpointAction.added "http://example.com/x"
    ∧ slpdb_endpoint_msg_box sampleUrlParser "not a url" true =
      EndpointAction.errorDialog
    ∧ slpdb_endpoint_msg_box sampleUrlParser "http://[::1" true =
      EndpointAction.errorDialog := by
  have h1 := slpdb_endpoint_validation sampleUrlParser "http://example.com/x" true
  have h2 := slpdb_endpoint_validation sampleUrlParser "not a url" true
  have h3 := slpdb_endpoint_validation sampleUrlParser "http://[::1" true
  refine ⟨(h1.2.2.1 "http://example.com/x").mpr ⟨by decide, rfl, rfl⟩, ?_, ?_⟩
  · exact h2.1 { scheme := "", netloc := "" } (by rfl) (by decide)
  · exact h3.2.1 () (by rfl)

end SlpValidation

namespace ListRenderers

/-- A tree-list widget as observed by the `update` methods: the ordered
row keys (`Qt.UserRole` data) and the key of the current selection. -/
structure WidgetState where
  rows : List String
  selected : Option String
deriving DecidableEq

/-- A `servers` dict value: the per-protocol port map, as an
association list (Python `d.get(protocol)`). -/
abbrev PortMap := List (String × String)

/-- `d.get(protocol)`. -/
def getPort (d : PortMap) (protocol : String) : Option String :=
  match d.find? (fun kv => kv.1 == protocol) with
  | some kv => some kv.2
  | none => none

/-- Truthiness of `port = d.get(protocol)`: present and nonempty. -/
def hasPort (protocol : String) (d : PortMap) : Bool :=
  match getPort d protocol with
  | some p => !p.isEmpty
  | none => false

/-- The external `serialize_server` collaborator used as the row key of
`ServerListWidget` rows (`host:port:protocol` join). -/
def serialize_server (host port protocol : String) : String :=
  host ++ ":" ++ port ++ ":" ++ protocol

/-- `sorted(servers.items())`: insertion of one entry into a host-sorted
list. -/
def insertByHost (x : String × PortMap) :
    List (String × PortMap) → List (String × PortMap)
  | [] => [x]
  | y :: ys => if decide (x.1 ≤ y.1) then x :: y :: ys else y :: insertByHost x ys

/-- `sorted(servers.items())`: host-keyed insertion sort (dict keys are
unique, so the host decides the order). -/
def sortByHost : List (String × PortMap) → List (String × PortMap)
  | [] => []
  | x :: xs => insertByHost x (sortByHost xs)

theorem mem_insertByHost (x a : String × PortMap) (l : List (String × PortMap)) :
    a ∈ insertByHost x l ↔ a = x ∨ a ∈ l := by
  induction l with
  | nil => simp [insertByHost]
  | cons y ys ih =>
    unfold insertByHost
    by_cases h : decide (x.1 ≤ y.1) = true
    · rw [if_pos h]
      simp
    · rw [if_neg h]
      simp [ih]
      tauto
  
theorem mem_sortByHost (a : String × PortMap) (l : List (String × PortMap)) :
    a ∈ sortByHost l ↔ a ∈ l := by
  induction l with
  | nil => simp [sortByHost]
  | cons x xs ih =>
    unfold sortByHost
    rw [mem_insertByHost]
    simp [ih]

/-- The per-row guard of the loop in `ServerListWidget.update`: the
`continue` skips onion hosts when `use_tor` is off, and the row is
built only under `if port:`. -/
def serverRendered (protocol : String) (use_tor : Bool)
    (host : String) (d : PortMap) : Bool :=
  if isOnionHost host && !use_tor then false
  else hasPort protocol d

/-- The row keys rebuilt by `ServerListWidget.update`: one
`serialize_server` key per sorted, rendered server. -/
def serverRows (protocol : String) (use_tor : Bool)
    (servers : List (String × PortMap)) : List String :=
  ((sortByHost servers).filter
      (fun hd => serverRendered protocol use_tor hd.1 hd.2)).map
    (fun hd => serialize_server hd.1 ((getPort hd.2 protocol).getD "") protocol)

/-- The rendered host column of `ServerListWidget.update`. -/
def renderedHosts (protocol : String) (use_tor : Bool)
    (servers : List (String × PortMap)) : List String :=
  ((sortByHost servers).filter
      (fun hd => serverRendered protocol use_tor hd.1 hd.2)).map Prod.fst

/-- `ServerListWidget.update`: capture the selected row key, clear,
rebuild the rows from the sorted/filtered snapshot, restore the
selection on the rebuilt row with the captured key when present. -/
def serverListUpdate (protocol : String) (use_tor : Bool)
    (servers : List (String × PortMap)) (w : WidgetState) : WidgetState :=
  { rows := serverRows protocol use_tor servers,
    selected :=
      match w.selected with
      | none => none
      | some k =>
        if (serverRows protocol use_tor servers).contains k then some k else none }

/-- `PostOfficeServeListWidget.update`: capture the selected key,
clear, rebuild one row per `POST_OFFICE_SERVERS` entry, restore the
selection by key when present. -/
def postOfficeUpdate (post_office_list : List String) (w : WidgetState) : WidgetState :=
  { rows := post_office_list,
    selected :=
      match w.selected with
      | none => none
      | some k => if post_office_list.contains k then some k else none }

/-- `SlpSLPDBServeListWidget.update`: clears the widget and rebuilds
one row per `slp_gs_mgr.slpdb_host` entry.  Unlike the other renderers
it does not capture the current selection, so `clear()` leaves the
rebuilt widget with no selection. -/
def slpSlpdbUpdate (slpdb_host : List String) (_w : WidgetState) : WidgetState :=
  { rows := slpdb_host, selected := none }

/-- `NodesListWidget.update`: captures the selected row's data(1) key,
clears, rebuilds one row per connected interface of each blockchain
branch (row key `i.server`), and restores the selection on the rebuilt
interface row whose server key equals the captured one.  The snapshot
is the per-branch lists of interface server keys; the extra branch
header rows shown when several chains coexist carry an integer
base-height key that never equals a captured server-key string, so
they are never restore targets and are not modelled as rows. -/
def nodesUpdate (chains : List (List String)) (w : WidgetState) : WidgetState :=
  { rows := chains.flatten,
    selected :=
      match w.selected with
      | none => none
      | some k => if chains.flatten.contains k then some k else none }

/-- `SlpGsServeListWidget.update`: captures the selected key, clears,
rebuilds one row per `networks.net.SLP_GS_SERVERS` key (the row key is
the node URL; the `◀` marker on the active GS host is display text
only), and restores the selection by key when present. -/
def slpGsUpdate (slp_gs_list : List String) (w : WidgetState) : WidgetState :=
  { rows := slp_gs_list,
    selected :=
      match w.selected with
      | none => none
      | some k => if slp_gs_list.contains k then some k else none }

/-- One entry of the `slp_gs_mgr.jobs_copy()` snapshot as read by
`SlpSearchJobListWidget.update`: the dict key `k` (the row key stored
at data(0)) and the job flags the status derivation reads. -/
structure GsJob where
  key : String
  search_success : Bool
  job_complete : Bool
  waiting_to_cancel : Bool
  search_started : Bool
deriving DecidableEq

/-- The status ladder of `SlpSearchJobListWidget.update`: `'NA'` when
graph search is disabled, else the first matching of
success/complete/cancelling/started, defaulting to `'In Queue'`. -/
def jobStatus (gs_enabled : Bool) (j : GsJob) : String :=
  if gs_enabled then
    if j.search_success then "Downloaded"
    else if j.job_complete then "Exited"
    else if j.waiting_to_cancel then "Stopping..."
    else if j.search_started then "Downloading..."
    else "In Queue"
  else "NA"

/-- One step of the categorising loop of `SlpSearchJobListWidget.update`
over `(working_item, completed_items, other_items)`: a
`'Downloading...'` job replaces `working_item` (an earlier one is
dropped), a `'Downloaded'` job is appended to `completed_items`,
anything else to `other_items`. -/
def categorizeJob (gs_enabled : Bool)
    (acc : Option String × List String × List String) (j : GsJob) :
    Option String × List String × List String :=
  if jobStatus gs_enabled j = "Downloading..." then
    (some j.key, acc.2.1, acc.2.2)
  else if jobStatus gs_enabled j = "Downloaded" then
    (acc.1, acc.2.1 ++ [j.key], acc.2.2)
  else
    (acc.1, acc.2.1, acc.2.2 ++ [j.key])

/-- The row keys rebuilt by `SlpSearchJobListWidget.update`:
`completed_items[::-1]`, then `other_items`, then `working_item`
inserted at index 0 when present. -/
def jobRows (gs_enabled : Bool) (jobs : List GsJob) : List String :=
  match jobs.foldl (categorizeJob gs_enabled) (none, [], []) with
  | (some wk, completed, others) => wk :: (completed.reverse ++ others)
  | (none, completed, others) => completed.reverse ++ others

/-- `SlpSearchJobListWidget.update` (its row/selection effect; the
rate-limit decorator, checkbox refresh and byte-count label are
outside the widget rows): captures `selected_item_id`, clears,
rebuilds the categorised rows from the jobs snapshot, and
`setCurrentSelectedItem` restores the selection on the rebuilt row
whose data(0) key equals the captured one. -/
def jobsUpdate (gs_enabled : Bool) (jobs : List GsJob) (w : WidgetState) : WidgetState :=
  { rows := jobRows gs_enabled jobs,
    selected :=
      match w.selected with
      | none => none
      | some k => if (jobRows gs_enabled jobs).contains k then some k else none }

/-- Counterexample to C9 as stated: the SLPDB endpoint renderer does
not restore the prior selection even when its key is still present in
the snapshot — after the update the selection is gone. -/
theorem slpdb_renderer_no_restore_counterexample :
    ¬ ((slpSlpdbUpdate ["https://slpdb.example"]
          { rows := ["https://slpdb.example"],
            selected := some "https://slpdb.example" }).selected =
        some "https://slpdb.example") := by
  decide

/-- C9 (amended): each renderer — nodes, servers, jobs, GS endpoint,
SLPDB endpoint and postage endpoint — clears and rebuilds its rows
from the latest snapshot and is idempotent: a second update on the
same snapshot reproduces the same rows and selection; the nodes,
servers, jobs, GS endpoint and postage renderers restore the prior
selection by key lookup when the key is still present (and drop it
otherwise); the SLPDB endpoint renderer alone does not restore the
selection, which `clear()` resets. -/
theorem renderer_update_spec (protocol : String) (use_tor : Bool)
    (servers : List (String × PortMap)) (posts slpdb : List String)
    (chains : List (List String)) (gs_list : List String)
    (gs_enabled : Bool) (jobs : List GsJob) (w : WidgetState) :
    serverListUpdate protocol use_tor servers
        (serverListUpdate protocol use_tor servers w)
      = serverListUpdate protocol use_tor servers w
    ∧ postOfficeUpdate posts (postOfficeUpdate posts w) = postOfficeUpdate posts w
    ∧ slpSlpdbUpdate slpdb (slpSlpdbUpdate slpdb w) = slpSlpdbUpdate slpdb w
    ∧ nodesUpdate chains (nodesUpdate chains w) = nodesUpdate chains w
    ∧ slpGsUpdate gs_list (slpGsUpdate gs_list w) = slpGsUpdate gs_list w
    ∧ jobsUpdate gs_enabled jobs (jobsUpdate gs_enabled jobs w)
      = jobsUpdate gs_enabled jobs w
    ∧ (∀ k, w.selected = some k → posts.contains k = true →
        (postOfficeUpdate posts w).selected = some k)
    ∧ (∀ k, w.selected = some k → posts.contains k = false →
        (postOfficeUpdate posts w).selected = none)
    ∧ (∀ k, w.selected = some k →
        (serverRows protocol use_tor servers).contains k = true →
        (serverListUpdate protocol use_tor servers w).selected = some k)
    ∧ (∀ k, w.selected = some k →
        (serverRows protocol use_tor servers).contains k = false →
        (serverListUpdate protocol use_tor servers w).selected = none)
    ∧ (∀ k, w.selected = some k → chains.flatten.contains k = true →
        (nodesUpdate chains w).selected = some k)
    ∧ (∀ k, w.selected = some k → chains.flatten.contains k = false →
        (nodesUpdate chains w).selected = none)
    ∧ (∀ k, w.selected = some k → gs_list.contains k = true →
        (slpGsUpdate gs_list w).selected = some k)
    ∧ (∀ k, w.selected = some k → gs_list.contains k = false →
        (slpGsUpdate gs_list w).selected = none)
    ∧ (∀ k, w.selected = some k → (jobRows gs_enabled jobs).contains k = true →
        (jobsUpdate gs_enabled jobs w).selected = some k)
    ∧ (∀ k, w.selected = some k → (jobRows gs_enabled jobs).contains k = false →
        (jobsUpdate gs_enabled jobs w).selected = none)
    ∧ (postOfficeUpdate posts w).rows = posts
    ∧ (nodesUpdate chains w).rows = chains.flatten
    ∧ (slpGsUpdate gs_list w).rows = gs_list
    ∧ (jobsUpdate gs_enabled jobs w).rows = jobRows gs_enabled jobs
    ∧ (slpSlpdbUpdate slpdb w).rows = slpdb
    ∧ (slpSlpdbUpdate slpdb w).selected = none := by
  refine ⟨?_, ?_, rfl, ?_, ?_, ?_, ?_, ?_, ?_, ?_, ?_, ?_, ?_, ?_, ?_, ?_,
    rfl, rfl, rfl, rfl, rfl, rfl⟩
  · unfold serverListUpdate
    cases hs : w.selected with
    | none => simp
    | some k =>
      by_cases hm : k ∈ serverRows protocol use_tor servers
      · simp [hm]
      · simp [hm]
  · unfold postOfficeUpdate
    cases hs : w.selected with
    | none => simp
    | some k =>
      by_cases hm : k ∈ posts
      · simp [hm]
      · simp [hm]
  · unfold nodesUpdate
    cases hs : w.selected with
    | none => simp
    | some k =>
      by_cases hm : k ∈ chains.flatten
      · simp [hm]
      · simp [hm]
  · unfold slpGsUpdate
    cases hs : w.selected with
    | none => simp
    | some k =>
      by_cases hm : k ∈ gs_list
      · simp [hm]
      · simp [hm]
  · unfold jobsUpdate
    cases hs : w.selected with
    | none => simp
    | some k =>
      by_cases hm : k ∈ jobRows gs_enabled jobs
      · simp [hm]
      · simp [hm]
  · intro k hk hc
    have hm : k ∈ posts := by simpa using hc
    simp [postOfficeUpdate, hk, hm]
  · intro k hk hc
    have hm : k ∉ posts := by simpa using hc
    simp [postOfficeUpdate, hk, hm]
  · intro k hk hc
    have hm : k ∈ serverRows protocol use_tor servers := by simpa using hc
    simp [serverListUpdate, hk, hm]
  · intro k hk hc
    have hm : k ∉ serverRows protocol use_tor servers := by simpa using hc
    simp [serverListUpdate, hk, hm]
  · intro k hk hc
    have hm : k ∈ chains.flatten := by simpa using hc
    simp [nodesUpdate, hk, hm]
  · intro k hk hc
    have hm : k ∉ chains.flatten := by simpa using hc
    simp [nodesUpdate, hk, hm]
  · intro k hk hc
    have hm : k ∈ gs_list := by simpa using hc
    simp [slpGsUpdate, hk, hm]
  · intro k hk hc
    have hm : k ∉ gs_list := by simpa using hc
    simp [slpGsUpdate, hk, hm]
  · intro k hk hc
    have hm : k ∈ jobRows gs_enabled jobs := by simpa using hc
    simp [jobsUpdate, hk, hm]
  · intro k hk hc
    have hm : k ∉ jobRows gs_enabled jobs := by simpa using hc
    simp [jobsUpdate, hk, hm]

/-- A one-job snapshot for the witness: a downloading graph-search
job whose row key is selected. -/
def sampleJob : GsJob :=
  { key := "a1b2c3", search_success := false, job_complete := false,
    waiting_to_cancel := false, search_started := true }

/-- Witness for `renderer_update_spec`: one-entry snapshots whose key
is selected; the postage, nodes, GS endpoint and jobs renderers keep
the selection, the SLPDB renderer loses it. -/
theorem renderer_update_spec_witness :
    (postOfficeUpdate ["https://postage.example"]
        { rows := [], selected := some "https://postage.example" }).selected =
      some "https://postage.example"
    ∧ (nodesUpdate [["node.example:50002:s"]]
        { rows := [], selected := some "node.example:50002:s" }).selected =
      some "node.example:50002:s"
    ∧ (slpGsUpdate ["https://gs.example"]
        { rows := [], selected := some "https://gs.example" }).selected =
      some "https://gs.example"
    ∧ (jobsUpdate true [sampleJob]
        { rows := [], selected := some "a1b2c3" }).selected = some "a1b2c3"
    ∧ jobRows true [sampleJob] = ["a1b2c3"]
    ∧ (slpSlpdbUpdate ["https://postage.example"]
        { rows := [], selected := some "https://postage.example" }).selected = none := by
  have hp := renderer_update_spec "s" true [] ["https://postage.example"]
    ["https://postage.example"] [] [] true []
    { rows := [], selected := some "https://postage.example" }
  have hn := renderer_update_spec "s" true [] [] [] [["node.example:50002:s"]] [] true []
    { rows := [], selected := some "node.example:50002:s" }
  have hg := renderer_update_spec "s" true [] [] [] [] ["https://gs.example"] true []
    { rows := [], selected := some "https://gs.example" }
  have hj := renderer_update_spec "s" true [] [] [] [] [] true [sampleJob]
    { rows := [], selected := some "a1b2c3" }
  refine ⟨hp.2.2.2.2.2.2.1 "https://postage.example" rfl (by decide),
    hn.2.2.2.2.2.2.2.2.2.2.1 "node.example:50002:s" rfl (by decide),
    hg.2.2.2.2.2.2.2.2.2.2.2.2.1 "https://gs.example" rfl (by decide),
    hj.2.2.2.2.2.2.2.2.2.2.2.2.2.2.1 "a1b2c3" rfl (by decide),
    by decide,
    hp.2.2.2.2.2.2.2.2.2.2.2.2.2.2.2.2.2.2.2.2.2⟩

/-- C10: a server whose host lowercases to a `.onion` suffix is never
rendered when `use_tor` is off, and is rendered with Tor on iff it has
a truthy port for the protocol; a non-onion server with a truthy port
is rendered regardless of `use_tor`. -/
theorem onion_server_filter (protocol host : String) (d : PortMap)
    (use_tor : Bool) (servers : List (String × PortMap)) :
    serverRendered protocol use_tor host d
      = ((!(isOnionHost host) || use_tor) && hasPort protocol d)
    ∧ (isOnionHost host = true → host ∉ renderedHosts protocol false servers)
    ∧ (isOnionHost host = false → (host, d) ∈ servers → hasPort protocol d = true →
        host ∈ renderedHosts protocol use_tor servers) := by
  refine ⟨?_, ?_, ?_⟩
  · unfold serverRendered
    cases ho : isOnionHost host with
    | false => cases use_tor <;> simp
    | true => cases use_tor <;> simp
  · intro ho hmem
    unfold renderedHosts at hmem
    rcases List.mem_map.mp hmem with ⟨hd, hin, hfst⟩
    rcases List.mem_filter.mp hin with ⟨-, hrend⟩
    rw [hfst] at hrend
    unfold serverRendered at hrend
    rw [ho] at hrend
    simp at hrend
  · intro ho hmem hport
    unfold renderedHosts
    refine List.mem_map.mpr ⟨(host, d), ?_, rfl⟩
    refine List.mem_filter.mpr ⟨(mem_sortByHost (host, d) servers).mpr hmem, ?_⟩
    unfold serverRendered
    rw [ho]
    simpa using hport

/-- Witness for `onion_server_filter`: with Tor off, the onion server
is omitted and the clearnet server is listed. -/
theorem onion_server_filter_witness :
    isOnionHost "torserver.onion" = true
    ∧ "torserver.onion" ∉ renderedHosts "s"
        false [("torserver.onion", [("s", "50002")]), ("clear.example", [("s", "50002")])]
    ∧ "clear.example" ∈ renderedHosts "s"
        false [("torserver.onion", [("s", "50002")]), ("clear.example", [("s", "50002")])] := by
  have h1 := onion_server_filter "s" "torserver.onion" [("s", "50002")] false
    [("torserver.onion", [("s", "50002")]), ("clear.example", [("s", "50002")])]
  have h2 := onion_server_filter "s" "clear.example" [("s", "50002")] false
    [("torserver.onion", [("s", "50002")]), ("clear.example", [("s", "50002")])]
  refine ⟨by decide, h1.2.1 (by decide), h2.2.2 (by decide) (by simp) (by decide)⟩

end ListRenderers
